import Mathlib

/-!
Verification of the YADT build-and-launch orchestration pipeline
(src/main.rs) against its specification.

The Rust program is embedded shallowly:

* the package-manager subprocess is external, so each build stage is
  modelled as a function of the simulated line stream the subprocess
  writes to its stdout (each item is the result one `lines()` iteration
  yields: a decoded line or a decode failure);
* `expect`-induced panics are made explicit as an `abort` outcome
  carrying the panic message from the source;
* the filesystem reads in `parse_config` are parameters (the result of
  reading the override file, and the optional text of the
  default-location file, whose read errors the source collapses with
  `.ok()`), and the TOML parser is a parameter as well;
* `HashSet` iteration order is unspecified in Rust, so functions that
  iterate a set take the enumeration as an explicit duplicate-free list.
-/

/-! ## Configuration data model (src/main.rs lines 21-123) -/

/-- Source `default_docker_name`: serde default for the CLI name. -/
def default_docker_name : String := "podman"

/-- Source `default_nix_image`: serde default for the nix image. -/
def default_nix_image : String := "docker.io/nixos/nix:latest"

/-- Source `default_base_packages`: the built-in base package set. -/
def default_base_packages : Finset String :=
  {"bash", "bash-completion", "bc", "curl", "diffutils", "findutils",
   "glibc", "gnupg", "iputils", "inetutils", "keyutils", "less", "lsof",
   "man", "mlocate", "mtr", "ncurses", "nssmdns", "openssh", "pigz",
   "pinentry-tty", "procps", "rsync", "shadow", "sudo", "tcpdump",
   "time", "traceroute", "tree", "tzdata", "unzip", "util-linux",
   "wget", "zip"}

/-- Source `struct Config`: the application settings.  The Rust
`HashSet<String>` fields are modelled as `Finset String`. -/
structure Config where
  docker_name : String
  nix_image : String
  base_packages : Finset String
  additional_packages : Finset String
deriving DecidableEq

/-- Source `impl Default for Config` (lines 114-123). -/
def Config.defaultConfig : Config :=
  ⟨default_docker_name, default_nix_image, default_base_packages, ∅⟩

/-! ## Package Set Resolver (src/main.rs `Config::all_packages`, lines 102-112) -/

/-- The fixed formatting rule applied to each package name:
`format!("nixpkgs#\x7b\x7d", s)`. -/
def nixpkgsToken (s : String) : String := "nixpkgs#" ++ s

/-- Source `Config::all_packages`: iterate the union of the two sets
(`unionList` is the enumeration the `HashSet` union iterator yields),
map each name through `nixpkgsToken`, and `reduce` the results with
`format!("\x7b\x7d \x7b\x7d", a, b)` (a left fold over the tail starting from
the head), defaulting to the empty string when the union is empty. -/
def all_packages (unionList : List String) : String :=
  match unionList.map nixpkgsToken with
  | [] => ""
  | t :: ts => ts.foldl (fun a b => a ++ " " ++ b) t

/-! ## Line streams and last-line capture (src/main.rs lines 194-214, 264-278) -/

/-- One item of the `BufReader::lines()` iterator over the subprocess
stdout: a decoded line, or an `io::Error` (for example invalid UTF-8). -/
inductive LineRead where
  | ok (s : String)
  | fail
deriving DecidableEq

/-- Outcome of the last-line capture: either the captured identifier, or
a process abort (a Rust `expect` panic) with the panic message. -/
inductive CaptureOutcome where
  | ok (id : String)
  | abort (msg : String)
deriving DecidableEq

/-- The `expect` message at src/main.rs lines 212 and 277. -/
def emptyOutputMsg : String := "Build command did not write to stdout."

/-- The `expect` message at src/main.rs lines 213 and 278. -/
def decodeFailMsg : String := "Could not read last line of stdout"

/-- Both build stages end with
`.lines() ... .last().expect(emptyOutputMsg).expect(decodeFailMsg)`:
take the last item of the stream; panic if the stream was empty; panic
if the last item failed to decode; otherwise return the line. -/
def captureLastLine (stream : List LineRead) : CaptureOutcome :=
  match stream.getLast? with
  | none => .abort emptyOutputMsg
  | some .fail => .abort decodeFailMsg
  | some (.ok s) => .ok s

/-- The side-effecting `map` in the layered build (lines 268-275): for
every `Ok` line the closure prints `">>> \x7b\x7d"` before yielding the item
on; `Err` items are passed through silently.  `last()` drives the whole
stream, so every item is visited.  This returns the printed lines in
order. -/
def forwardedLines (stream : List LineRead) : List String :=
  stream.foldl
    (fun acc l =>
      match l with
      | .ok s => acc ++ [">>> " ++ s]
      | .fail => acc)
    []

/-- The layered-build streaming-capture protocol (lines 264-278): read
the stdout stream, echoing each decoded line with the `">>> "` marker,
and capture the last item as the image identifier. -/
def layeredBuildCapture (stream : List LineRead) : List String × CaptureOutcome :=
  (forwardedLines stream, captureLastLine stream)

/-! ## Image Acquisition Stage (src/main.rs lines 193-216) -/

/-- Source `enum Mode`: build a containerfile, or use an image name. -/
inductive Mode where
  | containerfile (path : String)
  | image (name : String)

/-- The `match cli.mode` producing `dev_image` (lines 193-216).  The
result pairs the number of subprocesses spawned by the branch with the
capture outcome.  The `Containerfile` branch spawns one build subprocess
and captures the last line of its stdout stream; the `Image` branch
returns the name unchanged and spawns nothing. -/
def acquireDevImage (mode : Mode) (buildStdout : List LineRead) :
    Nat × CaptureOutcome :=
  match mode with
  | .containerfile _ => (1, captureLastLine buildStdout)
  | .image name => (0, .ok name)

/-- Helper for `bufReadLines`: `cur` holds the characters of the line
being accumulated, in reverse. -/
def bufReadLinesAux (cur : List Char) : List Char → List String
  | [] =>
    match cur with
    | [] => []
    | _ => [String.mk cur.reverse]
  | c :: cs =>
    if c = '\n' then String.mk cur.reverse :: bufReadLinesAux [] cs
    else bufReadLinesAux (c :: cur) cs

/-- Model of Rust `BufRead::lines()` applied to a whole stdout byte
stream (valid UTF-8, LF line endings): each yielded line is the text up
to the next newline, without the newline itself; a trailing newline
terminates the final line rather than starting an empty one. -/
def bufReadLines (s : String) : List String :=
  bufReadLinesAux [] s.data

/-! ## Interactive Launch Stage (src/main.rs lines 288-317) -/

/-- Behaviour of the operating-system `execve` underlying
`CommandExt::exec`: either the process image is replaced (the call
never returns), or the call fails and returns an `io::Error`, modelled
here by its message. -/
inductive ExecBehavior where
  | replaced
  | failed (e : String)

/-- How `main` finishes: either control transferred permanently to the
container process, or `main` returned a `Result` to the runtime. -/
inductive MainOutcome where
  | processReplaced
  | returned (r : Except String Unit)

/-- The tail of `main` (lines 288-317): `Command::new(...)....exec();`
followed by `Ok(())`.  When `exec` succeeds the process is replaced and
nothing after the call runs.  When `exec` fails it returns the
`io::Error`, but the source discards that value (the statement ends
with `;` and no `?`), so control falls through to `Ok(())`. -/
def interactiveLaunch (b : ExecBehavior) : MainOutcome :=
  match b with
  | .replaced => .processReplaced
  | .failed _ => .returned (Except.ok ())

/-- Exit code of the process when `main : Result<(), io::Error>`
returns: `Ok` exits 0, `Err` exits non-zero (modelled as 1). -/
def exitCode : Except String Unit → Nat
  | .ok _ => 0
  | .error _ => 1

/-! ## Configuration loading (src/main.rs lines 159-185) -/

/-- The raw TOML document as far as `Config` deserialization is
concerned: which of the four fields are present, and their values. -/
structure TomlConfig where
  docker_name : Option String
  nix_image : Option String
  base_packages : Option (Finset String)
  additional_packages : Option (Finset String)

/-- Serde deserialization failure. -/
inductive DeserializeError where
  | missingField (name : String)
deriving DecidableEq

/-- Serde semantics of `#[derive(Deserialize)] struct Config` (lines
79-100): `docker_name`, `nix_image` and `base_packages` carry
`#[serde(default = ...)]` and fall back to their defaults when absent;
`additional_packages` carries no default attribute, so an absent
`additional_packages` field is a deserialization error. -/
def deserializeConfig (t : TomlConfig) : Except DeserializeError Config :=
  match t.additional_packages with
  | none => .error (.missingField "additional_packages")
  | some ap =>
    .ok ⟨t.docker_name.getD default_docker_name,
         t.nix_image.getD default_nix_image,
         t.base_packages.getD default_base_packages,
         ap⟩

/-- Source `parse_config` (lines 167-185).  `fromStr` is the TOML
parser (`toml::from_str` composed with the error mapping).
`override_read` is the result of `fs::read_to_string` on the override
path when one was given; a failed override read propagates via `?`.
`default_text` is `default_config_text()`: the text of the
default-location config file, already `None` when that file is missing
or unreadable (the source collapses read errors with `.ok()`).  When
neither source yields text, the built-in default config is returned. -/
def parse_config (fromStr : String → Except String Config)
    (override_read : Option (Except String String))
    (default_text : Option String) : Except String Config :=
  match override_read with
  | some (Except.error e) => Except.error e
  | some (Except.ok t) => fromStr t
  | none =>
    match default_text with
    | some t => fromStr t
    | none => Except.ok Config.defaultConfig

/-! ## Sanity checks of the embedding on concrete streams -/

example : bufReadLines "a\nb\n" = ["a", "b"] := by decide
example : bufReadLines "" = [] := by decide
example : bufReadLines "a\n\n" = ["a", ""] := by decide
example : all_packages [] = "" := rfl
example : all_packages ["bash", "git"] = "nixpkgs#bash nixpkgs#git" := rfl
example : captureLastLine [.ok "x", .fail] = .abort decodeFailMsg := rfl
example : layeredBuildCapture [.ok "a", .ok "b"] =
    ([">>> a", ">>> b"], .ok "b") := rfl

/-! ## Helper lemmas -/

theorem foldl_forward_step (ls : List String) (acc : List String) :
    List.foldl
      (fun acc l =>
        match l with
        | LineRead.ok s => acc ++ [">>> " ++ s]
        | LineRead.fail => acc)
      acc (ls.map LineRead.ok) = acc ++ ls.map (fun s => ">>> " ++ s) := by
  induction ls generalizing acc with
  | nil => simp
  | cons a as ih => simp [ih]

theorem forwardedLines_map_ok (ls : List String) :
    forwardedLines (ls.map LineRead.ok) = ls.map (fun s => ">>> " ++ s) := by
  simpa [forwardedLines] using foldl_forward_step ls []

theorem captureLastLine_map_ok (ls : List String) (h : ls ≠ []) :
    captureLastLine (ls.map LineRead.ok) = CaptureOutcome.ok (ls.getLast h) := by
  simp [captureLastLine, List.getLast?_map, List.getLast?_eq_getLast_of_ne_nil h]

theorem intercalate_go_foldl (as : List String) (acc : String) :
    String.intercalate.go acc " " as =
      as.foldl (fun a b => a ++ " " ++ b) acc := by
  induction as generalizing acc with
  | nil => rfl
  | cons a as ih => simp [String.intercalate.go, List.foldl, ih]

theorem all_packages_eq_intercalate (l : List String) :
    all_packages l = String.intercalate " " (l.map nixpkgsToken) := by
  unfold all_packages
  cases h : l.map nixpkgsToken with
  | nil => rfl
  | cons t ts => simp [String.intercalate, intercalate_go_foldl]

theorem nixpkgsToken_injective : Function.Injective nixpkgsToken := by
  intro a b hab
  have h : ("nixpkgs#" ++ a).data = ("nixpkgs#" ++ b).data :=
    congrArg String.data hab
  simp only [String.data_append] at h
  exact String.toList_inj.mp (List.append_cancel_left h)

/-! ## Claim theorems -/

/-- C1: in the Layered Build Stage, for every simulated subprocess
stdout stream of N lines with N at least 1, the captured image
identifier equals line N exactly, and every one of the N lines is
forwarded to standard output prefixed with the progress marker
">>> ", in the order the lines were read. -/
theorem layered_lastLine_capture (ls : List String) (h : ls ≠ []) :
    layeredBuildCapture (ls.map LineRead.ok) =
      (ls.map (fun s => ">>> " ++ s), CaptureOutcome.ok (ls.getLast h)) := by
  simp [layeredBuildCapture, forwardedLines_map_ok, captureLastLine_map_ok ls h]

/-- Witness for C1 at the concrete two-line stream of the end-to-end
scenario in the spec. -/
theorem layered_lastLine_capture_witness :
    (["step 1/2", "sha256-id"] : List String) ≠ [] ∧
    layeredBuildCapture ((["step 1/2", "sha256-id"] : List String).map LineRead.ok) =
      ([">>> step 1/2", ">>> sha256-id"], CaptureOutcome.ok "sha256-id") :=
  ⟨by decide, (layered_lastLine_capture ["step 1/2", "sha256-id"] (by decide)).trans (by decide)⟩

/-- C2 counterexample: on a zero-line stream both stages abort with the
expect panic message "Build command did not write to stdout." rather
than failing with a BuildOutputEmptyError value; the claim that the
stage never panics is false. -/
theorem emptyOutput_panics_cex :
    acquireDevImage (Mode.containerfile "Containerfile") [] =
      (1, CaptureOutcome.abort emptyOutputMsg) ∧
    (layeredBuildCapture []).2 = CaptureOutcome.abort emptyOutputMsg :=
  ⟨rfl, rfl⟩

/-- C2 amended: for a build subprocess producing zero stdout lines,
both stages abort via an expect panic carrying the message
"Build command did not write to stdout."; neither stage returns an
image identifier (in particular never a silently empty one). -/
theorem emptyOutput_aborts (path : String) :
    acquireDevImage (Mode.containerfile path) [] =
      (1, CaptureOutcome.abort emptyOutputMsg) ∧
    (layeredBuildCapture []).2 = CaptureOutcome.abort emptyOutputMsg ∧
    ∀ s, captureLastLine [] ≠ CaptureOutcome.ok s :=
  ⟨rfl, rfl, fun _ h => CaptureOutcome.noConfusion h⟩

/-- Witness for C2 amended at a concrete path. -/
theorem emptyOutput_aborts_witness :
    acquireDevImage (Mode.containerfile "Containerfile") [] =
      (1, CaptureOutcome.abort emptyOutputMsg) ∧
    (layeredBuildCapture []).2 = CaptureOutcome.abort emptyOutputMsg ∧
    ∀ s, captureLastLine [] ≠ CaptureOutcome.ok s :=
  emptyOutput_aborts "Containerfile"

/-- C3 counterexample: the stream whose bytes are "id\n\n" has lines
["id", ""]; its last non-empty line is "id", but the acquisition stage
captures the final empty line "" instead — trailing empty lines are
not skipped. -/
theorem lastNonempty_cex :
    bufReadLines "id\n\n" = ["id", ""] ∧
    acquireDevImage (Mode.containerfile "Containerfile")
        ((bufReadLines "id\n\n").map LineRead.ok) = (1, CaptureOutcome.ok "") ∧
    ("" : String) ≠ "id" :=
  ⟨by decide, by decide, by decide⟩

/-- C3 amended: in the Image Acquisition Stage with a containerfile,
for every stdout stream with at least one line (all decoding), the
produced ImageReference equals the last line of the stream, whether or
not that line is empty; empty trailing lines are not skipped. -/
theorem acquire_lastLine (path : String) (ls : List String) (h : ls ≠ []) :
    acquireDevImage (Mode.containerfile path) (ls.map LineRead.ok) =
      (1, CaptureOutcome.ok (ls.getLast h)) := by
  simp [acquireDevImage, captureLastLine_map_ok ls h]

/-- Witness for C3 amended at a concrete stream ending in an empty
line. -/
theorem acquire_lastLine_witness :
    (["id", ""] : List String) ≠ [] ∧
    acquireDevImage (Mode.containerfile "Containerfile")
        ((["id", ""] : List String).map LineRead.ok) = (1, CaptureOutcome.ok "") :=
  ⟨by decide, (acquire_lastLine "Containerfile" ["id", ""] (by decide)).trans (by decide)⟩

/-- C4: the Image Acquisition Stage applied to an existing image name
returns the name unchanged and spawns no subprocess, whatever stream
the (never-spawned) build subprocess would have produced. -/
theorem reference_passthrough (name : String) (stream : List LineRead) :
    acquireDevImage (Mode.image name) stream = (0, CaptureOutcome.ok name) :=
  rfl

/-- C5: for every config and every duplicate-free enumeration of the
union of its base and additional package sets, the resolver output is
the "nixpkgs#name" tokens of the enumeration joined by single spaces,
the token list has no duplicates (even when the two sets overlap), and
a token appears in it exactly when it is the token of some member of
the union. -/
theorem package_set_union (c : Config) (l : List String)
    (hnd : l.Nodup)
    (hmem : l.toFinset = c.base_packages ∪ c.additional_packages) :
    all_packages l = String.intercalate " " (l.map nixpkgsToken) ∧
    (l.map nixpkgsToken).Nodup ∧
    ∀ t, t ∈ l.map nixpkgsToken ↔
      ∃ x, x ∈ c.base_packages ∪ c.additional_packages ∧ t = nixpkgsToken x := by
  refine ⟨all_packages_eq_intercalate l, hnd.map nixpkgsToken_injective, ?_⟩
  intro t
  simp only [List.mem_map]
  constructor
  · rintro ⟨x, hx, rfl⟩
    refine ⟨x, ?_, rfl⟩
    rw [← hmem]
    exact List.mem_toFinset.mpr hx
  · rintro ⟨x, hx, rfl⟩
    refine ⟨x, ?_, rfl⟩
    rw [← hmem] at hx
    exact List.mem_toFinset.mp hx

/-- Witness for C5 at overlapping sets: base contains bash, additional
contains bash and git. -/
theorem package_set_union_witness :
    (["bash", "git"] : List String).Nodup ∧
    (["bash", "git"] : List String).toFinset =
      (⟨"podman", "img", {"bash"}, {"bash", "git"}⟩ : Config).base_packages ∪
        (⟨"podman", "img", {"bash"}, {"bash", "git"}⟩ : Config).additional_packages ∧
    (all_packages ["bash", "git"] =
        String.intercalate " " ((["bash", "git"] : List String).map nixpkgsToken) ∧
      ((["bash", "git"] : List String).map nixpkgsToken).Nodup ∧
      ∀ t, t ∈ (["bash", "git"] : List String).map nixpkgsToken ↔
        ∃ x, x ∈ (⟨"podman", "img", {"bash"}, {"bash", "git"}⟩ : Config).base_packages ∪
            (⟨"podman", "img", {"bash"}, {"bash", "git"}⟩ : Config).additional_packages ∧
          t = nixpkgsToken x) :=
  ⟨by decide, by decide,
    package_set_union ⟨"podman", "img", {"bash"}, {"bash", "git"}⟩ ["bash", "git"]
      (by decide) (by decide)⟩

/-- C6: when the union of the base and additional package sets is
empty, the resolver returns the empty string (and does not fail: the
result is an ordinary string, produced by unwrap_or_default). -/
theorem empty_package_set (c : Config) (l : List String)
    (hmem : l.toFinset = c.base_packages ∪ c.additional_packages)
    (hempty : c.base_packages ∪ c.additional_packages = ∅) :
    all_packages l = "" := by
  have hl : l = [] := by
    rw [hempty] at hmem
    exact (List.toFinset_eq_empty_iff l).mp hmem
  subst hl
  rfl

/-- Witness for C6 at a config whose two package sets are both empty. -/
theorem empty_package_set_witness :
    ([] : List String).toFinset =
      (⟨"podman", "img", ∅, ∅⟩ : Config).base_packages ∪
        (⟨"podman", "img", ∅, ∅⟩ : Config).additional_packages ∧
    (⟨"podman", "img", ∅, ∅⟩ : Config).base_packages ∪
        (⟨"podman", "img", ∅, ∅⟩ : Config).additional_packages = ∅ ∧
    all_packages [] = "" :=
  ⟨by decide, by decide,
    empty_package_set (⟨"podman", "img", ∅, ∅⟩ : Config) [] (by decide) (by decide)⟩

/-- C7 counterexample: when the exec underlying the Interactive Launch
Stage fails, main returns Ok(()) — a normal successful return with
exit code 0 — because the io::Error returned by exec is discarded, so
the failure does not propagate as a top-level I/O error with a
non-zero exit code. -/
theorem exec_failure_swallowed_cex :
    interactiveLaunch (ExecBehavior.failed "exec format error") =
      MainOutcome.returned (Except.ok ()) ∧
    exitCode (Except.ok ()) = 0 :=
  ⟨rfl, rfl⟩

/-- C7 amended: on success the launch never returns (control transfers
permanently to the launched process); when the exec fails, the error
value is discarded and main falls through to a normal successful
return, so the process exits with code 0 and no error is reported. -/
theorem launch_success_never_returns :
    interactiveLaunch ExecBehavior.replaced = MainOutcome.processReplaced ∧
    ∀ e, interactiveLaunch (ExecBehavior.failed e) =
      MainOutcome.returned (Except.ok ()) ∧
      exitCode (Except.ok ()) = 0 :=
  ⟨rfl, fun _ => ⟨rfl, rfl⟩⟩

/-- C8: evaluating the deserializer of struct Config on a TOML
document that omits the additional_packages field: serde fails with a
missing-field error instead of defaulting the field to the empty set,
contradicting the doc comment on the field in the source. -/
theorem omitted_additional_packages_fails :
    deserializeConfig ⟨some "docker", none, none, none⟩ =
      Except.error (DeserializeError.missingField "additional_packages") ∧
    ∀ c, deserializeConfig ⟨some "docker", none, none, none⟩ ≠ Except.ok c :=
  ⟨rfl, fun _ h => Except.noConfusion h⟩

/-- C10: when no override path is supplied and the default-location
config file is missing or unreadable, loading returns the built-in
default settings — docker_name "podman", nix_image
"docker.io/nixos/nix:latest", the default base package set, empty
additional packages — and never an error; a failure can only come from
parsing a file whose text was actually obtained. -/
theorem default_config_when_missing (fromStr : String → Except String Config) :
    parse_config fromStr none none = Except.ok Config.defaultConfig ∧
    Config.defaultConfig.docker_name = "podman" ∧
    Config.defaultConfig.nix_image = "docker.io/nixos/nix:latest" ∧
    Config.defaultConfig.base_packages = default_base_packages ∧
    Config.defaultConfig.additional_packages = ∅ ∧
    ∀ t, parse_config fromStr none (some t) = fromStr t :=
  ⟨rfl, rfl, rfl, rfl, rfl, fun _ => rfl⟩
